import Mathlib

/-!
Verification development for the SIR covid-modeling program in main.py.

The program has two algorithmic pieces:

* Instance(beta, gamma, S_0, I_0, R_0, num_days): integrates the SIR system
  dS/dt = -beta*S*I/N, dI/dt = beta*S*I/N - gamma*I, dR/dt = gamma*I with
  N = S_0 + I_0 + R_0, sampling the solution at t = 0, 1, ..., num_days-1,
  and returns the arrays S, I, R.
* fitting(x, beta, I_0, N, num_days): the forward model of the fit; it calls
  Instance with gamma = 1/7, S_0 = N - I_0, R_0 = 0 for len(x) days and
  returns the I array.  main() fits beta in the box [0, 1] with all other
  parameters frozen.

The embedding has two layers: an executable rational-arithmetic layer that
mirrors the functions of the source (the external library integrator is
modelled by a Runge-Kutta step, see rk4Step), and a continuous-time layer
(IsSIRsol) stating that three real functions solve the governing equations,
used for the analytic properties (exponential decay, monotonicity).
-/

namespace SIR

/-- Right-hand side of the SIR system, translated from the inner function
deriv(y, t, N, b, g) of Instance in main.py: for y = (S, I, R) it returns
(dSdt, dIdt, dRdt) = (-b*S*I/N, b*S*I/N - g*I, g*I).  Polymorphic over the
scalar field so that the same definition serves the executable rational
model and the real-valued continuous semantics. -/
def deriv {K : Type} [Field K] (y : K × K × K) (t N b g : K) : K × K × K :=
  (-b * y.1 * y.2.1 / N, b * y.1 * y.2.1 / N - g * y.2.1, g * y.2.1)

/-- Componentwise y + a * k on state triples (helper for the solver model). -/
def axpy (a : ℚ) (k y : ℚ × ℚ × ℚ) : ℚ × ℚ × ℚ :=
  (y.1 + a * k.1, y.2.1 + a * k.2.1, y.2.2 + a * k.2.2)

/-- Weighted Runge-Kutta combination of the four stage slopes. -/
def rkCombine (a : ℚ) (k1 k2 k3 k4 y : ℚ × ℚ × ℚ) : ℚ × ℚ × ℚ :=
  axpy a (k1.1 + 2 * k2.1 + 2 * k3.1 + k4.1,
          k1.2.1 + 2 * k2.2.1 + 2 * k3.2.1 + k4.2.1,
          k1.2.2 + 2 * k2.2.2 + 2 * k3.2.2 + k4.2.2) y

/-- Modelled from the spec: scipy.integrate.odeint, the numerical solver that
Instance calls, is external library code, not part of this repository.  The
spec asks for an adaptive-step solver of local order at least 4 and names
Runge-Kutta as suitable, so one integration step is modelled as a classical
fourth-order Runge-Kutta step of size h from time t. -/
def rk4Step (N b g t h : ℚ) (y : ℚ × ℚ × ℚ) : ℚ × ℚ × ℚ :=
  let k1 := deriv y t N b g
  let k2 := deriv (axpy (h / 2) k1 y) (t + h / 2) N b g
  let k3 := deriv (axpy (h / 2) k2 y) (t + h / 2) N b g
  let k4 := deriv (axpy h k3 y) (t + h) N b g
  rkCombine (h / 6) k1 k2 k3 k4 y

/-- State of the modelled solver after n unit-length days, starting from y0:
the sample of the numerical solution at integer time t = n. -/
def solveSIR (N b g : ℚ) (y0 : ℚ × ℚ × ℚ) : Nat → ℚ × ℚ × ℚ
  | 0 => y0
  | n + 1 => rk4Step N b g (n : ℚ) 1 (solveSIR N b g y0 n)

/-- Translation of Instance(beta, gamma, S_0, I_0, R_0, num_days) of main.py:
computes N = S_0 + I_0 + R_0, integrates from the initial triple over the
time grid t = 0, 1, ..., num_days - 1, and returns the component arrays
S, I, R.  The source performs no validation of any argument. -/
def Instance (beta gamma S_0 I_0 R_0 : ℚ) (num_days : Nat) :
    List ℚ × List ℚ × List ℚ :=
  let N := S_0 + I_0 + R_0
  let sol := (List.range num_days).map (solveSIR N beta gamma (S_0, I_0, R_0))
  (sol.map (fun y => y.1), sol.map (fun y => y.2.1), sol.map (fun y => y.2.2))

/-- Translation of fitting(x, beta, I_0, N, num_days) of main.py: starts with
I_0 infected and the rest susceptible (S_0 = N - I_0, R_0 = 0), recovery
rate gamma = 1/7, runs Instance for len(x) days and returns the I array.
The num_days argument is accepted but never used. -/
def fitting (x : List ℚ) (beta I_0 N : ℚ) (num_days : Nat) : List ℚ :=
  (Instance beta (1 / 7) (N - I_0) I_0 0 x.length).2.1

/-- Parameter-hint record mirroring the lmfit set_param_hint fields that
main.py sets for beta. -/
structure ParamHint where
  value : ℚ
  min : ℚ
  max : ℚ
  vary : Bool

/-- Record for a parameter created by make_params whose vary flag main.py
then assigns. -/
structure FixedParam where
  value : ℚ
  vary : Bool

/-- Collection of the optimizer parameters configured in main(). -/
structure FitParams where
  beta : ParamHint
  I_0 : FixedParam
  N : FixedParam
  num_days : FixedParam

/-- Translation of the parameter setup in main(), for observation series I of
a region with population N: set_param_hint("beta", value=-0., min=0, max=1,
vary=True), make_params(I_0=I[0], N=N, num_days=len(I)), and then the vary
flags of N, I_0 and num_days are assigned False. -/
def mainParams (I : List ℚ) (N : ℚ) : FitParams :=
  ⟨⟨-0, 0, 1, true⟩, ⟨I.headI, false⟩, ⟨N, false⟩, ⟨(I.length : ℚ), false⟩⟩

/-- Sum-of-squared-residuals objective of the fit in main(): the observed
series I is compared against the forward model fitting evaluated at
x = arange(len(I)) with I_0 = I[0] and the region population N. -/
def objective (I : List ℚ) (N : ℚ) (beta : ℚ) : ℚ :=
  ((I.zip (fitting ((List.range I.length).map (fun i : Nat => (i : ℚ)))
      beta I.headI N I.length)).map (fun p => (p.1 - p.2) ^ 2)).sum

/-- Linear scan keeping the candidate with the smaller objective value. -/
def argminQ (f : ℚ → ℚ) : List ℚ → ℚ → ℚ
  | [], best => best
  | c :: cs, best => argminQ f cs (if f c < f best then c else best)

/-- Evenly spaced candidate grid covering the box [0, 1]. -/
def betaGrid (k : Nat) : List ℚ :=
  (List.range (k + 1)).map (fun i : Nat => (i : ℚ) / (k : ℚ))

/-- Modelled from the spec: model.fit(..., method="powell") in main() runs
lmfit's box-constrained Powell search, external library code that is not
part of this repository.  The spec admits any comparable derivative-free
bounded optimizer, so the search is modelled as a bounded candidate scan
over the box [0, 1] returning the candidate of minimal objective. -/
def fitBeta (I : List ℚ) (N : ℚ) (k : Nat) : ℚ :=
  argminQ (objective I N) (betaGrid k) 0

/-- Total population S + I + R of a state triple. -/
def sumT (y : ℚ × ℚ × ℚ) : ℚ := y.1 + y.2.1 + y.2.2

lemma sumT_deriv (y : ℚ × ℚ × ℚ) (t N b g : ℚ) :
    (deriv y t N b g).1 + (deriv y t N b g).2.1 + (deriv y t N b g).2.2 = 0 := by
  simp only [deriv]
  ring

lemma sumT_axpy (a : ℚ) (k y : ℚ × ℚ × ℚ) :
    sumT (axpy a k y) = sumT y + a * (k.1 + k.2.1 + k.2.2) := by
  simp only [sumT, axpy]
  ring

lemma sumT_rkCombine (a : ℚ) (k1 k2 k3 k4 y : ℚ × ℚ × ℚ)
    (h1 : k1.1 + k1.2.1 + k1.2.2 = 0) (h2 : k2.1 + k2.2.1 + k2.2.2 = 0)
    (h3 : k3.1 + k3.2.1 + k3.2.2 = 0) (h4 : k4.1 + k4.2.1 + k4.2.2 = 0) :
    sumT (rkCombine a k1 k2 k3 k4 y) = sumT y := by
  simp only [rkCombine, sumT_axpy]
  linear_combination a * h1 + 2 * a * h2 + 2 * a * h3 + a * h4

lemma sumT_rk4Step (N b g t h : ℚ) (y : ℚ × ℚ × ℚ) :
    sumT (rk4Step N b g t h y) = sumT y :=
  sumT_rkCombine _ _ _ _ _ _ (sumT_deriv _ _ _ _ _) (sumT_deriv _ _ _ _ _)
    (sumT_deriv _ _ _ _ _) (sumT_deriv _ _ _ _ _)

lemma sumT_solveSIR (N b g : ℚ) (y0 : ℚ × ℚ × ℚ) (n : Nat) :
    sumT (solveSIR N b g y0 n) = sumT y0 := by
  induction n with
  | zero => rfl
  | succ n ih =>
    show sumT (rk4Step N b g (n : ℚ) 1 (solveSIR N b g y0 n)) = sumT y0
    rw [sumT_rk4Step, ih]

lemma getD_map_range (f : Nat → ℚ) (n t : Nat) (ht : t < n) :
    ((List.range n).map f).getD t 0 = f t := by
  rw [List.getD_eq_getElem _ _ (by simpa using ht)]
  simp

lemma Instance_getD (beta gamma S_0 I_0 R_0 : ℚ) (num_days t : Nat)
    (ht : t < num_days) :
    (Instance beta gamma S_0 I_0 R_0 num_days).1.getD t 0 =
      (solveSIR (S_0 + I_0 + R_0) beta gamma (S_0, I_0, R_0) t).1 ∧
    (Instance beta gamma S_0 I_0 R_0 num_days).2.1.getD t 0 =
      (solveSIR (S_0 + I_0 + R_0) beta gamma (S_0, I_0, R_0) t).2.1 ∧
    (Instance beta gamma S_0 I_0 R_0 num_days).2.2.getD t 0 =
      (solveSIR (S_0 + I_0 + R_0) beta gamma (S_0, I_0, R_0) t).2.2 := by
  simp only [Instance]
  rw [List.map_map, List.map_map, List.map_map]
  exact ⟨getD_map_range _ _ _ ht, getD_map_range _ _ _ ht, getD_map_range _ _ _ ht⟩

lemma Instance_lengths (beta gamma S_0 I_0 R_0 : ℚ) (num_days : Nat) :
    (Instance beta gamma S_0 I_0 R_0 num_days).1.length = num_days ∧
    (Instance beta gamma S_0 I_0 R_0 num_days).2.1.length = num_days ∧
    (Instance beta gamma S_0 I_0 R_0 num_days).2.2.length = num_days := by
  refine ⟨?_, ?_, ?_⟩ <;> simp [Instance]

lemma argminQ_bounds (f : ℚ → ℚ) :
    ∀ (l : List ℚ) (best : ℚ), (∀ c ∈ l, 0 ≤ c ∧ c ≤ 1) → 0 ≤ best → best ≤ 1 →
      0 ≤ argminQ f l best ∧ argminQ f l best ≤ 1
  | [], _, _, h0, h1 => ⟨h0, h1⟩
  | c :: cs, best, hl, h0, h1 => by
    have hc := hl c (List.mem_cons_self c cs)
    have hcs : ∀ d ∈ cs, 0 ≤ d ∧ d ≤ 1 := fun d hd => hl d (List.mem_cons_of_mem c hd)
    simp only [argminQ]
    split
    · exact argminQ_bounds f cs c hcs hc.1 hc.2
    · exact argminQ_bounds f cs best hcs h0 h1

lemma betaGrid_bounds (k : Nat) : ∀ c ∈ betaGrid k, 0 ≤ c ∧ c ≤ 1 := by
  intro c hc
  obtain ⟨i, hi, rfl⟩ := List.mem_map.mp hc
  have hik : i ≤ k := by
    have := List.mem_range.mp hi
    omega
  refine ⟨by positivity, ?_⟩
  rcases Nat.eq_zero_or_pos k with hk | hk
  · subst hk
    have h0 : i = 0 := Nat.le_zero.mp hik
    subst h0
    norm_num
  · rw [div_le_one (by exact_mod_cast hk)]
    exact_mod_cast hik

end SIR

/-- C1: for every valid simulator input (beta >= 0, gamma > 0, S0, I0, R0 >= 0,
num_days >= 1) and every time step t of the returned trajectory, the sum
S(t) + I(t) + R(t) equals N = S0 + I0 + R0.  In the embedded solver the
conservation is exact, hence within any integration tolerance. -/
theorem sir_conservation (beta gamma S_0 I_0 R_0 : ℚ) (num_days t : Nat)
    (hb : 0 ≤ beta) (hg : 0 < gamma) (hS : 0 ≤ S_0) (hI : 0 ≤ I_0) (hR : 0 ≤ R_0)
    (hn : 1 ≤ num_days) (ht : t < num_days) :
    (SIR.Instance beta gamma S_0 I_0 R_0 num_days).1.getD t 0 +
      (SIR.Instance beta gamma S_0 I_0 R_0 num_days).2.1.getD t 0 +
      (SIR.Instance beta gamma S_0 I_0 R_0 num_days).2.2.getD t 0 =
      S_0 + I_0 + R_0 := by
  obtain ⟨e1, e2, e3⟩ := SIR.Instance_getD beta gamma S_0 I_0 R_0 num_days t ht
  rw [e1, e2, e3]
  simpa [SIR.sumT] using
    SIR.sumT_solveSIR (S_0 + I_0 + R_0) beta gamma (S_0, I_0, R_0) t

/-- Witness for C1 at beta = 1, gamma = 1/7, S0 = 2, I0 = 1, R0 = 0,
num_days = 2, t = 1. -/
theorem sir_conservation_witness :
    (SIR.Instance 1 (1/7) 2 1 0 2).1.getD 1 0 +
      (SIR.Instance 1 (1/7) 2 1 0 2).2.1.getD 1 0 +
      (SIR.Instance 1 (1/7) 2 1 0 2).2.2.getD 1 0 = 2 + 1 + 0 :=
  sir_conservation 1 (1/7) 2 1 0 2 1 (by norm_num) (by norm_num) (by norm_num)
    (by norm_num) (by norm_num) (by norm_num) (by norm_num)

/-- C2: the fitter's forward model uses initial conditions I0 = observed_I[0],
S0 = N - I0, R0 = 0 and the fixed recovery rate gamma = 1/7, and the
parameter configuration of main() varies only beta (inside [0, 1]) while
I_0, N and num_days carry the observed values and are frozen. -/
theorem fitting_fixed_config (I : List ℚ) (N : ℚ) (x : List ℚ) (beta : ℚ)
    (num_days : Nat) :
    SIR.fitting x beta I.headI N num_days =
      (SIR.Instance beta (1/7) (N - I.headI) I.headI 0 x.length).2.1 ∧
    (SIR.mainParams I N).I_0.value = I.headI ∧
    (SIR.mainParams I N).N.value = N ∧
    (SIR.mainParams I N).num_days.value = (I.length : ℚ) ∧
    (SIR.mainParams I N).beta.vary = true ∧
    (SIR.mainParams I N).I_0.vary = false ∧
    (SIR.mainParams I N).N.vary = false ∧
    (SIR.mainParams I N).num_days.vary = false ∧
    (SIR.mainParams I N).beta.min = 0 ∧
    (SIR.mainParams I N).beta.max = 1 :=
  ⟨rfl, rfl, rfl, rfl, rfl, rfl, rfl, rfl, rfl, rfl⟩

/-- C5 counterexample: the claim says the simulator fails with an
InvalidParameter error for gamma = 0 or a negative initial value instead of
returning a trajectory.  The source performs no validation at all: at
beta = 1, gamma = 0, S_0 = -1, I_0 = 1, R_0 = 2, num_days = 2 it returns a
full two-day trajectory whose first S entry is the negative initial value. -/
theorem gamma_zero_counterexample :
    (SIR.Instance 1 0 (-1) 1 2 2).1.length = 2 ∧
      (SIR.Instance 1 0 (-1) 1 2 2).1.getD 0 0 = -1 := by
  constructor
  · simp [SIR.Instance]
  · rfl

/-- C5 amended: the simulator performs no input validation; called with
gamma = 0 or with a negative initial compartment value it raises no error
and still returns a trajectory of the requested length. -/
theorem simulator_no_validation (beta gamma S_0 I_0 R_0 : ℚ) (num_days : Nat)
    (h : gamma = 0 ∨ S_0 < 0 ∨ I_0 < 0 ∨ R_0 < 0) :
    (SIR.Instance beta gamma S_0 I_0 R_0 num_days).1.length = num_days ∧
    (SIR.Instance beta gamma S_0 I_0 R_0 num_days).2.1.length = num_days ∧
    (SIR.Instance beta gamma S_0 I_0 R_0 num_days).2.2.length = num_days :=
  SIR.Instance_lengths beta gamma S_0 I_0 R_0 num_days

/-- Witness for the amended C5 at gamma = 0. -/
theorem simulator_no_validation_witness :
    (SIR.Instance 1 0 2 1 0 3).1.length = 3 ∧
    (SIR.Instance 1 0 2 1 0 3).2.1.length = 3 ∧
    (SIR.Instance 1 0 2 1 0 3).2.2.length = 3 :=
  simulator_no_validation 1 0 2 1 0 3 (Or.inl rfl)

/-- C6 counterexample: the claim says an observation series of length 1 fails
with an InsufficientData error.  The source performs no length check: on the
one-point series [5] the forward model returns the one-day trajectory [5]
(the initial infected count) without any error. -/
theorem insufficient_data_counterexample :
    SIR.fitting [5] (1/2) 5 100 7 = [5] := by
  rfl

/-- C6 amended: the fitter performs no length validation; an observation
series of length at most 1 is processed without error and yields a
trajectory of the same length. -/
theorem fitting_no_length_check (x : List ℚ) (beta I_0 N : ℚ) (num_days : Nat)
    (h : x.length ≤ 1) :
    (SIR.fitting x beta I_0 N num_days).length = x.length :=
  (SIR.Instance_lengths _ _ _ _ _ _).2.1

/-- Witness for the amended C6 on the one-point series [5]. -/
theorem fitting_no_length_check_witness :
    (SIR.fitting [5] (1/2) 5 100 7).length = [(5 : ℚ)].length :=
  fitting_no_length_check [5] (1/2) 5 100 7 (by decide)

/-- C7 counterexample: the claim says the simulator fails with a
DivisionByZero-class error when N = S0 + I0 + R0 = 0 instead of returning a
trajectory.  The source traps nothing: at S_0 = I_0 = R_0 = 0, num_days = 2
it returns the full two-day trajectory (identically zero in the embedded
exact arithmetic; NaNs under the floating-point arithmetic of the source,
still with no error raised). -/
theorem zero_population_counterexample :
    SIR.Instance 1 (1/7) 0 0 0 2 = ([0, 0], [0, 0], [0, 0]) := by
  norm_num [SIR.Instance, List.range_succ, SIR.solveSIR, SIR.rk4Step,
    SIR.rkCombine, SIR.axpy, SIR.deriv]

/-- C7 amended: the simulator has no division-by-zero error branch; with
N = S0 + I0 + R0 = 0 the division is untrapped and a trajectory of the
requested length is still returned (for N > 0 the division in deriv is
well-defined, so the claim's unreachability statement is vacuous: there is
no error branch to reach). -/
theorem zero_population_no_error (beta gamma S_0 I_0 R_0 : ℚ) (num_days : Nat)
    (h : S_0 + I_0 + R_0 = 0) :
    (SIR.Instance beta gamma S_0 I_0 R_0 num_days).1.length = num_days ∧
    (SIR.Instance beta gamma S_0 I_0 R_0 num_days).2.1.length = num_days ∧
    (SIR.Instance beta gamma S_0 I_0 R_0 num_days).2.2.length = num_days :=
  SIR.Instance_lengths beta gamma S_0 I_0 R_0 num_days

/-- Witness for the amended C7 at S_0 = I_0 = R_0 = 0. -/
theorem zero_population_no_error_witness :
    (SIR.Instance 1 (1/7) 0 0 0 2).1.length = 2 ∧
    (SIR.Instance 1 (1/7) 0 0 0 2).2.1.length = 2 ∧
    (SIR.Instance 1 (1/7) 0 0 0 2).2.2.length = 2 :=
  zero_population_no_error 1 (1/7) 0 0 0 2 (by norm_num)

/-- C8: the search over beta is box-constrained to [0, 1], so the returned
estimate always lies in [0, 1]; the statement holds for every observation
series, in particular for one of length 2, and the search is a total
function, so it cannot crash. -/
theorem fitBeta_in_bounds (I : List ℚ) (N : ℚ) (k : Nat) :
    0 ≤ SIR.fitBeta I N k ∧ SIR.fitBeta I N k ≤ 1 :=
  SIR.argminQ_bounds _ _ 0 (SIR.betaGrid_bounds k) le_rfl (by norm_num)

/-- C9: simulator and fitter are deterministic: two runs on identical inputs
return identical trajectories and identical fit results.  Both embeddings
are pure functions of their arguments, mirroring the absence of randomized
restarts and of side effects in the source. -/
theorem runs_deterministic (beta gamma S_0 I_0 R_0 beta' gamma' S_0' I_0' R_0' : ℚ)
    (num_days num_days' : Nat) (I I' : List ℚ) (N N' : ℚ) (k k' : Nat)
    (h1 : beta = beta') (h2 : gamma = gamma') (h3 : S_0 = S_0') (h4 : I_0 = I_0')
    (h5 : R_0 = R_0') (h6 : num_days = num_days') (h7 : I = I') (h8 : N = N')
    (h9 : k = k') :
    SIR.Instance beta gamma S_0 I_0 R_0 num_days =
      SIR.Instance beta' gamma' S_0' I_0' R_0' num_days' ∧
    SIR.fitBeta I N k = SIR.fitBeta I' N' k' := by
  subst h1 h2 h3 h4 h5 h6 h7 h8 h9
  exact ⟨rfl, rfl⟩

/-- Witness for C9 at concrete identical inputs. -/
theorem runs_deterministic_witness :
    SIR.Instance 1 1 1 1 1 1 = SIR.Instance 1 1 1 1 1 1 ∧
    SIR.fitBeta [1] 1 1 = SIR.fitBeta [1] 1 1 :=
  runs_deterministic 1 1 1 1 1 1 1 1 1 1 1 1 [1] [1] 1 1 1 1
    rfl rfl rfl rfl rfl rfl rfl rfl rfl

/-- C10: the fitter's forward model ignores its num_days argument entirely:
the returned I trajectory is the same for every num_days value and its
length equals the length of the time array x. -/
theorem fitting_ignores_num_days (x : List ℚ) (beta I_0 N : ℚ) (d d' : Nat) :
    SIR.fitting x beta I_0 N d = SIR.fitting x beta I_0 N d' ∧
    (SIR.fitting x beta I_0 N d).length = x.length :=
  ⟨rfl, (SIR.Instance_lengths _ _ _ _ _ _).2.1⟩

/-- Continuous-time solution predicate: the real functions S, I, R solve the
governing equations of the source for parameters N, b, g, with right-hand
side the embedded field SIR.deriv instantiated at the reals.  The numerical
solver approximates exactly these solutions, so the spec's analytic
statements about trajectories are settled against this semantics. -/
def IsSIRsol (N b g : ℝ) (S I R : ℝ → ℝ) : Prop :=
  ∀ t : ℝ,
    HasDerivAt S (SIR.deriv (S t, I t, R t) t N b g).1 t ∧
    HasDerivAt I (SIR.deriv (S t, I t, R t) t N b g).2.1 t ∧
    HasDerivAt R (SIR.deriv (S t, I t, R t) t N b g).2.2 t

/-- Representation of a scalar linear ODE solution: a real function whose
derivative at every point u is c u * f u, with continuous coefficient c,
equals f 0 times the exponential of the running integral of c. -/
lemma linear_ode_rep (c f : ℝ → ℝ) (hc : Continuous c)
    (hf : ∀ t, HasDerivAt f (c t * f t) t) (t : ℝ) :
    f t = f 0 * Real.exp (∫ s in (0:ℝ)..t, c s) := by
  have hCd : ∀ u : ℝ, HasDerivAt (fun v => ∫ s in (0:ℝ)..v, c s) (c u) u :=
    fun u => (hc.integral_hasStrictDerivAt 0 u).hasDerivAt
  have hE : ∀ u : ℝ, HasDerivAt (fun v => Real.exp (-(∫ s in (0:ℝ)..v, c s)))
      (Real.exp (-(∫ s in (0:ℝ)..u, c s)) * (-(c u))) u :=
    fun u => ((hCd u).neg).exp
  have hg : ∀ u : ℝ, HasDerivAt
      (fun v => f v * Real.exp (-(∫ s in (0:ℝ)..v, c s))) 0 u := by
    intro u
    have h2 := (hf u).mul (hE u)
    convert h2 using 1
    ring
  have hconst := is_const_of_deriv_eq_zero
    (fun u => (hg u).differentiableAt) (fun u => (hg u).deriv)
  have h4 := hconst t 0
  rw [intervalIntegral.integral_same] at h4
  simp only [neg_zero, Real.exp_zero, mul_one] at h4
  have h5 : f t * (Real.exp (-(∫ s in (0:ℝ)..t, c s)) *
      Real.exp (∫ s in (0:ℝ)..t, c s)) =
      f 0 * Real.exp (∫ s in (0:ℝ)..t, c s) := by
    rw [← mul_assoc, h4]
  rwa [← Real.exp_add, neg_add_cancel, Real.exp_zero, mul_one] at h5

/-- Identically-zero compartments solve the system for any parameters with
N = 1; concrete solution used by the witnesses below. -/
lemma zero_sol (b g : ℝ) :
    IsSIRsol 1 b g (fun _ => 0) (fun _ => 0) (fun _ => 0) := by
  intro t
  refine ⟨?_, ?_, ?_⟩ <;>
  · simpa [SIR.deriv] using hasDerivAt_const t (0:ℝ)

/-- C3: for beta = 0 the infected compartment decays exactly exponentially,
I(t) = I0 * exp(-gamma * t), and the susceptible compartment stays constant
at S0, for every solution of the governing equations (the spec's "within
integration tolerance" is satisfied exactly at this semantic level). -/
theorem beta_zero_decay (N g S_0 I_0 : ℝ) (S I R : ℝ → ℝ)
    (hsol : IsSIRsol N 0 g S I R) (hg : 0 < g) (hS0 : 0 ≤ S_0) (hI0 : 0 ≤ I_0)
    (hS : S 0 = S_0) (hI : I 0 = I_0) (t : ℝ) :
    I t = I_0 * Real.exp (-(g * t)) ∧ S t = S_0 := by
  constructor
  · have hf : ∀ u : ℝ, HasDerivAt I ((fun _ : ℝ => -g) u * I u) u := by
      intro u
      have h := (hsol u).2.1
      simp only [SIR.deriv] at h
      have e : (0:ℝ) * S u * I u / N - g * I u = -g * I u := by ring
      rw [e] at h
      exact h
    have hrep := linear_ode_rep (fun _ => -g) I continuous_const hf t
    rw [intervalIntegral.integral_const, hI] at hrep
    have e2 : ((t:ℝ) - 0) • (-g) = -(g * t) := by
      rw [smul_eq_mul]
      ring
    rw [e2] at hrep
    exact hrep
  · have hf : ∀ u : ℝ, HasDerivAt S ((fun _ : ℝ => (0:ℝ)) u * S u) u := by
      intro u
      have h := (hsol u).1
      simp only [SIR.deriv] at h
      have e : -(0:ℝ) * S u * I u / N = 0 * S u := by ring
      rw [e] at h
      exact h
    have hrep := linear_ode_rep (fun _ => 0) S continuous_const hf t
    rw [hS] at hrep
    simpa using hrep

/-- Witness for C3: the zero solution with N = 1, gamma = 1, evaluated at
t = 1, discharging every hypothesis. -/
theorem beta_zero_decay_witness :
    (0:ℝ) = 0 * Real.exp (-((1:ℝ) * 1)) ∧ (0:ℝ) = 0 :=
  beta_zero_decay 1 1 0 0 (fun _ => 0) (fun _ => 0) (fun _ => 0)
    (zero_sol 0 1) one_pos le_rfl le_rfl rfl rfl 1

/-- C4: for beta >= 0, gamma >= 0 and valid initial data (nonnegative S0 and
I0, positive population N), every solution of the governing equations has
S non-increasing and R non-decreasing, globally in time, hence over the
whole returned trajectory. -/
theorem sir_monotone (N b g : ℝ) (S I R : ℝ → ℝ)
    (hsol : IsSIRsol N b g S I R) (hb : 0 ≤ b) (hg : 0 ≤ g) (hN : 0 < N)
    (hS0 : 0 ≤ S 0) (hI0 : 0 ≤ I 0) :
    Antitone S ∧ Monotone R := by
  have hScont : Continuous S :=
    continuous_iff_continuousAt.mpr fun u => (hsol u).1.differentiableAt.continuousAt
  have hIcont : Continuous I :=
    continuous_iff_continuousAt.mpr fun u => (hsol u).2.1.differentiableAt.continuousAt
  have hIderiv : ∀ u : ℝ, HasDerivAt I ((fun s => b * S s / N - g) u * I u) u := by
    intro u
    have h := (hsol u).2.1
    simp only [SIR.deriv] at h
    have e : b * S u * I u / N - g * I u = (b * S u / N - g) * I u := by ring
    rw [e] at h
    exact h
  have hIc : Continuous fun s => b * S s / N - g :=
    ((continuous_const.mul hScont).div_const N).sub continuous_const
  have hIrep := fun u => linear_ode_rep _ I hIc hIderiv u
  have hIpos : ∀ u, 0 ≤ I u := fun u => by
    rw [hIrep u]
    exact mul_nonneg hI0 (Real.exp_pos _).le
  have hSderiv : ∀ u : ℝ, HasDerivAt S ((fun s => -(b * I s / N)) u * S u) u := by
    intro u
    have h := (hsol u).1
    simp only [SIR.deriv] at h
    have e : -b * S u * I u / N = -(b * I u / N) * S u := by ring
    rw [e] at h
    exact h
  have hSc : Continuous fun s => -(b * I s / N) :=
    ((continuous_const.mul hIcont).div_const N).neg
  have hSrep := fun u => linear_ode_rep _ S hSc hSderiv u
  have hSpos : ∀ u, 0 ≤ S u := fun u => by
    rw [hSrep u]
    exact mul_nonneg hS0 (Real.exp_pos _).le
  constructor
  · apply antitone_of_deriv_nonpos
    · exact fun u => (hsol u).1.differentiableAt
    · intro u
      rw [(hsol u).1.deriv]
      simp only [SIR.deriv]
      have hnn : 0 ≤ b * S u * I u :=
        mul_nonneg (mul_nonneg hb (hSpos u)) (hIpos u)
      have e : -b * S u * I u = -(b * S u * I u) := by ring
      rw [e, neg_div]
      exact neg_nonpos.mpr (div_nonneg hnn hN.le)
  · apply monotone_of_deriv_nonneg
    · exact fun u => (hsol u).2.2.differentiableAt
    · intro u
      rw [(hsol u).2.2.deriv]
      simp only [SIR.deriv]
      exact mul_nonneg hg (hIpos u)

/-- Witness for C4: the zero solution with N = 1, beta = gamma = 0,
discharging every hypothesis. -/
theorem sir_monotone_witness :
    Antitone (fun _ : ℝ => (0:ℝ)) ∧ Monotone (fun _ : ℝ => (0:ℝ)) :=
  sir_monotone 1 0 0 (fun _ => 0) (fun _ => 0) (fun _ => 0)
    (zero_sol 0 0) le_rfl le_rfl one_pos le_rfl le_rfl
